import Mathlib

/-!
Verification of the freqtrade RPC notification pipeline
(`freqtrade/rpc/channel.py`, `freqtrade/rpc/_telegram.py`,
`freqtrade/rpc/webhook.py`) against its natural-language specification.

The Python modules are shallowly embedded: dictionaries become a `Msg`
structure whose possibly-absent keys are `Option` fields (reading an
absent key, Python's `KeyError`, makes the embedded function return
`none`); floats become rationals; the chat-bot and fiat-converter
collaborators become explicit function parameters; the mutation of the
message dictionary is threaded explicitly where it is observable.
-/

set_option maxRecDepth 10000
set_option maxHeartbeats 2000000
set_option linter.unusedVariables false

namespace FreqtradeRPC

/-! ## Python semantics helpers -/

/-- `10 ^ n` as a rational, via the natural-number power so that
concrete instances evaluate inside the kernel. -/
def qpow10 (n : ℕ) : ℚ := ((10 ^ n : ℕ) : ℚ)

/-- Round-half-even of a rational to an integer, the rounding used by
Python's `round` builtin and fixed-point string formatting. Written with
integer arithmetic only (`q = num/den`, `den > 0`; the fractional part
`r/den` is compared with `1/2` via `2r` against `den`) so that concrete
instances evaluate inside the kernel. -/
def rhe (q : ℚ) : ℤ :=
  let f : ℤ := Int.fdiv q.num q.den
  let r : ℤ := Int.fmod q.num q.den
  if 2 * r < (q.den : ℤ) then f
  else if 2 * r > (q.den : ℤ) then f + 1
  else if f % 2 = 0 then f else f + 1

/-- Python `round(x, n)` on our rational stand-in for floats. -/
def roundPy (q : ℚ) (n : ℕ) : ℚ := (rhe (q * qpow10 n) : ℚ) / qpow10 n

/-- Write the integer `n` with a decimal point `k` digits from the right
(zero-padding the integral part), e.g. `decStr 1235 4 = "0.1235"`. -/
def decStr (n : ℤ) (k : ℕ) : String :=
  let ds := (toString n.natAbs).data
  let ds := if ds.length < k + 1 then List.replicate (k + 1 - ds.length) '0' ++ ds else ds
  let sign := if n < 0 then "-" else ""
  if k = 0 then sign ++ String.mk ds
  else sign ++ String.mk (ds.take (ds.length - k)) ++ "." ++ String.mk (ds.drop (ds.length - k))

/-- Python fixed-point formatting `f"{x:.nf}"`. -/
def formatFixed (q : ℚ) (n : ℕ) : String := decStr (rhe (q * qpow10 n)) n

/-- Smallest number of decimal digits (up to 17) that writes `q` exactly. -/
def decExp (q : ℚ) : Option ℕ := (List.range 18).find? (fun k => (q * qpow10 k).den = 1)

/-- Python `str(x)` for a float whose value is a short decimal: minimal
decimal digits, at least one fractional digit (`str(2.0) = "2.0"`). -/
def floatStr (q : ℚ) : String :=
  match decExp q with
  | some 0 => decStr q.num 0 ++ ".0"
  | some k => decStr (q * qpow10 k).num k
  | none => decStr (rhe (q * qpow10 17)) 17

/-- Zero-padded two-digit rendering of a non-negative integer. -/
def pad2 (n : ℤ) : String := if n < 10 then "0" ++ toString n else toString n

/-- Python `str(datetime.timedelta(seconds = s))`. -/
def timedeltaStr (s : ℤ) : String :=
  let d := Int.fdiv s 86400
  let r := Int.fmod s 86400
  let h := Int.fdiv r 3600
  let m := Int.fdiv (Int.fmod r 3600) 60
  let sc := Int.fmod r 60
  let base := toString h ++ ":" ++ pad2 m ++ ":" ++ pad2 sc
  if d = 0 then base
  else toString d ++ (if d = 1 ∨ d = -1 then " day, " else " days, ") ++ base

/-- Does the character list `n` start the character list `h`? -/
def chStarts : List Char → List Char → Bool
  | _, [] => true
  | [], _ :: _ => false
  | a :: as, b :: bs => a == b && chStarts as bs

/-- Does the character list `n` occur inside the character list `h`? -/
def chHas : List Char → List Char → Bool
  | [], n => n.isEmpty
  | h :: t, n => chStarts (h :: t) n || chHas t n

/-- Substring test: does `needle` occur inside `hay`? -/
def strHas (hay needle : String) : Bool := chHas hay.data needle.data

/-- Python `str.upper()` (ASCII, which is all the code upper-cases). -/
def strUpper (s : String) : String := String.mk (s.data.map Char.toUpper)

/-- Fuel-driven engine of `strReplace`, structurally recursive so that
concrete instances evaluate inside the kernel. -/
def chReplaceF : ℕ → List Char → List Char → List Char → List Char
  | 0, hay, _, _ => hay
  | fuel + 1, hay, pat, rep =>
    match hay with
    | [] => []
    | c :: rest =>
      if pat ≠ [] ∧ chStarts (c :: rest) pat then
        rep ++ chReplaceF fuel (List.drop pat.length (c :: rest)) pat rep
      else c :: chReplaceF fuel rest pat rep

/-- Python `str.replace(pat, rep)` for a non-empty pattern: every
non-overlapping occurrence, left to right. -/
def strReplace (s pat rep : String) : String :=
  String.mk (chReplaceF s.data.length s.data pat.data rep.data)

/-- Python `str.capitalize()`. -/
def pyCapitalize (s : String) : String :=
  match s.data with
  | [] => ""
  | c :: cs => String.mk (c.toUpper :: cs.map Char.toLower)

/-- Rendering of a possibly-`None` value in an f-string (`None` prints as
`"None"`). -/
def renderNone : Option String → String
  | none => "None"
  | some s => s

/-- Python truthiness of an optional boolean (absent and `False` are falsy). -/
def truthyB : Option Bool → Bool
  | some b => b
  | none => false

/-- Python truthiness of an optional string (absent and `""` are falsy). -/
def truthyS : Option String → Bool
  | some s => !(s == "")
  | none => false

/-- Python truthiness of an optional number (absent and `0` are falsy). -/
def truthyQ : Option ℚ → Bool
  | some q => !(q == 0)
  | none => false

/-! ## Event taxonomy and data model -/

/-- Modelled from the spec: `RPCMessageType` (`freqtrade.enums`) is not under
`src/`; the spec's event taxonomy (§3) is used. The legacy member names
`BUY`/`BUY_FILL`/`BUY_CANCEL`/`SELL`/`SELL_FILL`/`SELL_CANCEL` appearing in
`_telegram.py` and `webhook.py` denote the same entry/exit members. -/
inductive RPCMessageType
  | entry | entry_fill | entry_cancel
  | exit | exit_fill | exit_cancel
  | protection_trigger | protection_trigger_global
  | status | warning | startup | strategy_msg
  deriving DecidableEq

/-- `str(msg_type)`: the string value of the enum member, used as the key
into the notification-settings table. -/
def RPCMessageType.str : RPCMessageType → String
  | .entry => "entry"
  | .entry_fill => "entry_fill"
  | .entry_cancel => "entry_cancel"
  | .exit => "exit"
  | .exit_fill => "exit_fill"
  | .exit_cancel => "exit_cancel"
  | .protection_trigger => "protection_trigger"
  | .protection_trigger_global => "protection_trigger_global"
  | .status => "status"
  | .warning => "warning"
  | .startup => "startup"
  | .strategy_msg => "strategy_msg"

/-- A datetime, reduced to what the code observes: epoch seconds and the
microsecond component (`replace(microsecond=0)` zeroes the latter). -/
structure Date where
  sec : ℤ
  usec : ℕ := 0
  deriving DecidableEq

/-- The message dictionary. A field valued `none` models an absent key:
`msg['k']` on it raises `KeyError` (embedded as returning `none`), while
`msg.get('k')` yields Python `None`. Fields written by the formatters
(`uid`, `exchange`, `emoji`, `profit_percent`, ...) are also kept here so
the dictionary mutation performed by the source can be threaded. -/
structure Msg where
  type : RPCMessageType
  pair : Option String := none
  trade_id : Option ℤ := none
  amount : Option ℚ := none
  open_rate : Option ℚ := none
  current_rate : Option ℚ := none
  close_rate : Option ℚ := none
  order_rate : Option ℚ := none
  limit : Option ℚ := none
  stake_amount : Option ℚ := none
  stake_currency : Option String := none
  fiat_currency : Option String := none
  leverage : Option ℚ := none
  direction : Option String := none
  open_date : Option Date := none
  close_date : Option Date := none
  enter_tag : Option String := none
  buy_tag : Option String := none
  exit_tag : Option String := none
  exit_reason : Option String := none
  sell_reason : Option String := none
  reason : Option String := none
  profit_ratio : Option ℚ := none
  profit_amount : Option ℚ := none
  cumulative_profit : Option ℚ := none
  sub_trade : Option Bool := none
  gain : Option String := none
  status : Option String := none
  lock_end_time : Option String := none
  msgtext : Option String := none
  uid : Option String := none
  exchange : Option String := none
  emoji : Option String := none
  profit_percent : Option ℚ := none
  duration_sec : Option ℤ := none
  duration_min : Option ℚ := none
  leverage_text : Option String := none
  profit_fiat : Option ℚ := none
  profit_extra : Option String := none
  stake_amount_fiat : Option ℚ := none
  message_side : Option String := none
  side : Option String := none
  deriving DecidableEq

/-- A notification-settings value: either a tri-state string or (for the
exit family) a mapping from exit reason to tri-state. -/
inductive NotiVal
  | s (v : String)
  | d (m : List (String × String))
  deriving DecidableEq

/-- One configuration section (the source reads the `channel` and
`telegram` sections). `master` is a list of name-to-chat-id dictionaries,
`chat_id` the single secondary recipient (`""` when unset, matching
`.get('chat_id', '')`). -/
structure SectionCfg where
  master : List (List (String × String)) := []
  chat_id : String := ""
  notification_settings : List (String × NotiVal) := []
  deriving DecidableEq

/-- The configuration object, reduced to the keys the embedded code reads. -/
structure Cfg where
  channelSec : SectionCfg := {}
  telegramSec : SectionCfg := {}
  uid : Option String := none
  exchangeName : String := ""
  deriving DecidableEq

/-- The fiat-converter collaborator: `convert_amount(amount, from, to)`. -/
def FiatConv := ℚ → String → String → ℚ

/-- The last analyzed candle, when the data provider has one. -/
structure Candle where
  copen : ℚ := 0
  chigh : ℚ := 0
  clow : ℚ := 0
  cclose : ℚ := 0

/-- External collaborators reachable through `self._rpc`. -/
structure Collab where
  fiat : Option FiatConv := none
  candle : Option Candle := none

/-! ## Delivery model -/

/-- Outcome of one `bot.send_message` call, per the spec's chat-channel
collaborator contract (§6): success, a transient `NetworkError`, or a
non-network (permanent) `TelegramError`. In the telegram library
`NetworkError` is a subclass of `TelegramError`, so the outer
`except TelegramError` handler catches both. -/
inductive BotOutcome
  | ok | networkError | telegramError
  deriving DecidableEq

/-- One `bot.send_message` invocation with its full parameters. -/
structure Attempt where
  chat_id : String
  text : String
  parse_mode : String
  disable_notification : Bool
  deriving DecidableEq

/-- The chat-bot collaborator: the outcome of the n-th call with the given
parameters. -/
def BotBehavior := Attempt → ℕ → BotOutcome

/-- Per-recipient delivery result: how many attempts were made and whether
any succeeded. The embedded delivery function is total — no constructor
models a propagated exception. -/
inductive DeliveryResult
  | delivered (attempts : ℕ)
  | dropped (attempts : ℕ)
  deriving DecidableEq

/-! ## `freqtrade/rpc/channel.py` — the `Telegram` handler -/

namespace Channel

/-- Recipient fanout resolution, `Telegram._send_msg` lines 38-48 of
`channel.py`: master ids come from the `channel` section (flattened over
each name-to-id dictionary in insertion order, skipped for `STARTUP`),
the slave id from the `telegram` section's `chat_id` (skipped for
`STARTUP` and `STATUS`, and when unset). -/
def chat_ids (cfg : Cfg) (msg_type : RPCMessageType) : List String :=
  let master_ids := cfg.channelSec.master
  let ids : List String :=
    if master_ids.length ≠ 0 ∧ msg_type ∉ [RPCMessageType.startup] then
      (master_ids.map (fun master => master.map (fun p => p.2))).flatten
    else []
  let slave := cfg.telegramSec.chat_id
  if slave ≠ "" ∧ msg_type ∉ [RPCMessageType.startup, RPCMessageType.status] then
    ids ++ [slave]
  else ids

/-- The loop body of `Telegram._send_msg` lines 50-72 of `channel.py`:
one `bot.send_message` attempt; on `NetworkError` a single retry with the
same parameters; any `TelegramError` (the retry's failure included, since
`NetworkError` subclasses `TelegramError`) is caught and logged. The
function is total: no failure propagates. -/
def deliver_to (bot : BotBehavior) (chat_id text parse_mode : String)
    (disable_notification : Bool) : DeliveryResult × List Attempt :=
  let a : Attempt := ⟨chat_id, text, parse_mode, disable_notification⟩
  match bot a 0 with
  | .ok => (.delivered 1, [a])
  | .networkError =>
    match bot a 1 with
    | .ok => (.delivered 2, [a, a])
    | .networkError => (.dropped 2, [a, a])
    | .telegramError => (.dropped 2, [a, a])
  | .telegramError => (.dropped 1, [a])

/-- `Telegram._send_msg` of `channel.py`: resolve the recipients, then
deliver to each in order; the per-recipient try/except means every
recipient in the list is attempted. -/
def _send_msg (cfg : Cfg) (bot : BotBehavior) (text : String)
    (msg_type : RPCMessageType) (parse_mode : String)
    (disable_notification : Bool) : List (String × DeliveryResult × List Attempt) :=
  (chat_ids cfg msg_type).map
    (fun cid => (cid, deliver_to bot cid text parse_mode disable_notification))

/-- Notification-policy resolution, `Telegram.send_msg` lines 77-87 of
`channel.py`. For `EXIT` only, a mapping value is looked up by the
event's `exit_reason` (reading the key raises `KeyError` when absent),
falling back to the hardcoded `default_noti = 'on'`; every other event
type (including `EXIT_FILL`) takes the table value as-is, defaulting to
`'on'`. -/
def resolve_noti (settings : List (String × NotiVal)) (msg_type : RPCMessageType)
    (exit_reason_field : Option String) : Option NotiVal :=
  if msg_type = .exit then
    let sell_noti := (settings.lookup msg_type.str).getD (.d [])
    match sell_noti with
    | .s v => some (.s v)
    | .d mp =>
      match exit_reason_field with
      | none => none
      | some r => some (.s ((mp.lookup r).getD "on"))
  else
    some ((settings.lookup msg_type.str).getD (.s "on"))

/-- `Telegram._get_sell_emoji` of `channel.py`: a fixed priority chain on
`profit_percent`, whose last tier reads the legacy `sell_reason` key
(raising `KeyError`, i.e. `none`, when the event does not carry it). -/
def _get_sell_emoji (m : Msg) : Option String := do
  let pp ← m.profit_percent
  if pp ≥ 5 then pure "🚀"
  else if pp ≥ 0 then pure "💱"
  else do
    let sr ← m.sell_reason
    if sr = "stoploss" then pure "⚠" else pure "❌"

/-- `Telegram._add_analyzed_candle` of `channel.py`: an OHLC line when
`show_candle` is `'ohlc'` and the data provider has a candle, else `""`. -/
def _add_analyzed_candle (cfg : Cfg) (collab : Collab) (pair : String) : String :=
  let candle_val := (cfg.telegramSec.notification_settings.lookup "show_candle").getD (.s "off")
  if candle_val ≠ .s "off" then
    if candle_val = .s "ohlc" then
      match collab.candle with
      | some c =>
        "- Candle OHLC: " ++ floatStr c.copen ++ ", " ++ floatStr c.chigh ++ ", "
          ++ floatStr c.clow ++ ", " ++ floatStr c.cclose
      | none => ""
    else ""
  else ""

/-- Modelled from the spec: `round_coin_value` (`freqtrade.misc`) is not
under `src/`; the spec (§4.2) only says stake totals render as an amount
with its currency code, so it is modelled as 8-decimal fixed point
followed by the currency. No claim depends on its exact output. -/
def round_coin_value (value : ℚ) (coin : String) : String :=
  formatFixed value 8 ++ " " ++ coin

/-- `Telegram._format_entry_msg` of `channel.py` (lines 97-128), with the
dictionary writes threaded into the returned `Msg`. -/
def _format_entry_msg (cfg : Cfg) (collab : Collab) (m0 : Msg) : Option (String × Msg) := do
  let m := { m0 with stake_amount_fiat := some 0 }
  let m ← match collab.fiat with
    | some f => do
        let sa ← m.stake_amount
        let sc ← m.stake_currency
        let fc ← m.fiat_currency
        pure { m with stake_amount_fiat := some (f sa sc fc) }
    | none => pure m
  let is_fill := m.type ∈ [RPCMessageType.entry_fill]
  let m := { m with emoji := some (if is_fill then "❇" else "🔷") }
  let dir ← m.direction
  let entry_side : String × String :=
    if dir = "Long" then ("Long", "Longed") else ("Short", "Shorted")
  let pair ← m.pair
  let exch ← m.exchange
  let tid ← m.trade_id
  let emo ← m.emoji
  let line0 := _add_analyzed_candle cfg collab pair
  let line1 := emo ++ " <b>" ++ strUpper exch ++ ":::" ++ renderNone m.uid
    ++ ", #" ++ toString tid ++ "</b>"
  let line2 := "* <em>Order - ENTRY - " ++ (if is_fill then entry_side.2 else entry_side.1)
    ++ ", " ++ pair ++ "</em>"
  let tagLines := match m.enter_tag with
    | some t => if t ≠ "" then ["- ENTRY Tag: " ++ t] else []
    | none => []
  let amt ← m.amount
  let amountLine := "- Amount: " ++ formatFixed amt 4
  let levLines := match m.leverage with
    | some l => if l ≠ 0 ∧ l ≠ 1 then ["- Leverage: " ++ floatStr l] else []
    | none => []
  let rateLines ←
    if m.type = .entry_fill then do
      let orate ← m.open_rate
      pure ["- Rate, open: " ++ formatFixed orate 4]
    else if m.type = .entry then do
      let orate ← m.open_rate
      let crate ← m.current_rate
      pure ["- Rate, open: " ++ formatFixed orate 4,
            "- Rate, current: " ++ formatFixed crate 4]
    else pure ([] : List String)
  let sa ← m.stake_amount
  let sc ← m.stake_currency
  let saf ← m.stake_amount_fiat
  let total := "- Total: " ++ round_coin_value sa sc
  let total := if truthyS m.fiat_currency then
      total ++ " (" ++ round_coin_value saf (renderNone m.fiat_currency) ++ ")"
    else total
  let lines := [line0, line1, line2] ++ tagLines ++ [amountLine] ++ levLines
    ++ rateLines ++ [total]
  pure (String.intercalate "\n" lines, m)

/-- Lines 146-153 of `Telegram._format_exit_msg`: `profit_extra` is first
set to `None`, then filled through the fiat converter only when `gain`,
`fiat_currency` and `stake_currency` are all present and a converter is
configured. -/
def exit_profit_extra (collab : Collab) (pa : ℚ) (m : Msg) : Msg :=
  let m := { m with profit_extra := none }
  match m.gain, m.fiat_currency, m.stake_currency, collab.fiat with
  | some _, some fc, some sc, some f =>
      let pf := f pa sc fc
      { m with profit_fiat := some pf,
               profit_extra := some (formatFixed pa 2 ++ " " ++ sc ++ " ("
                 ++ formatFixed pf 2 ++ " " ++ fc ++ ")") }
  | _, _, _, _ => m

/-- Lines 155-159 of `Telegram._format_exit_msg`: the cumulative-profit
extra is built through `self._rpc._fiat_converter` with **no**
availability guard — with no converter configured the attribute access
on `None` raises (embedded as `none`). -/
def exit_cp_extra (collab : Collab) (is_sub_profit is_sub_trade : Bool) (m : Msg) :
    Option String :=
  if is_sub_profit && is_sub_trade then do
    let f ← collab.fiat
    let cp ← m.cumulative_profit
    let sc ← m.stake_currency
    let fc ← m.fiat_currency
    let cp_fiat := f cp sc fc
    let tail := " / " ++ fc ++ " " ++ formatFixed cp_fiat 3
    pure ("- Cumulative Profit: (" ++ formatFixed cp 4 ++ " " ++ sc ++ tail ++ ")")
  else pure ""

/-- Lines 165-166 of `Telegram._format_exit_msg`: the gain line, present
when `profit_extra` is truthy. -/
def exit_gain_line (m : Msg) : Option (List String) :=
  if truthyS m.profit_extra then do
    let g ← m.gain
    pure ["- " ++ pyCapitalize g ++ ": " ++ renderNone m.profit_extra]
  else pure []

/-- Lines 168-175 of `Telegram._format_exit_msg`: tag, reason, duration,
amount, direction and open-rate lines. -/
def exit_body_lines (m : Msg) (dsec : ℤ) : Option (List String) := do
  let l4 := "- ENTRY Tag: " ++ renderNone m.enter_tag
  let etLines := match m.exit_tag with
    | some t => if t ≠ "" then ["- EXIT Tag: " ++ t] else []
    | none => []
  let er ← m.exit_reason
  let l5 := "- Reason: " ++ (if er = "" then "" else (strReplace (strUpper er) "_" " "))
  let l6 := "- Duration: " ++ timedeltaStr dsec ++ " (" ++ formatFixed ((dsec : ℚ) / 60) 1 ++ "m)"
  let amtR ← m.amount
  let l7 := "- Amount: " ++ formatFixed amtR 4
  let dir ← m.direction
  let l8 := "- Direction: " ++ dir
  let orate ← m.open_rate
  let l9 := "- Rate, open: " ++ formatFixed orate 4
  pure ([l4] ++ etLines ++ [l5, l6, l7, l8, l9])

/-- Lines 177-183 of `Telegram._format_exit_msg`: the per-variant rate
lines (current and, when truthy, exit rate for pending exits; close rate
for fills). -/
def exit_rate_lines (m : Msg) : Option (List String) :=
  if m.type = .exit then do
    let crate ← m.current_rate
    let ordr ← m.order_rate
    let base := ["- Rate, current: " ++ formatFixed crate 4]
    pure (if ordr ≠ 0 then base ++ ["- Rate, exit: " ++ formatFixed ordr 4] else base)
  else if m.type = .exit_fill then do
    let clr ← m.close_rate
    pure ["- Rate, close: " ++ formatFixed clr 4]
  else pure []

/-- Lines 185-193 of `Telegram._format_exit_msg`: the sub-trade block —
`stake_amount_fiat` via the converter when configured (else `0`), the
remaining-stake line, and, when a fiat currency is set, line 193's
`message += f", ..."`, which extends the line *list* with the string's
characters one element each. -/
def exit_tail (collab : Collab) (m : Msg) : Option (Msg × List String) :=
  if truthyB m.sub_trade then do
    let m ← match collab.fiat with
      | some f => do
          let sa ← m.stake_amount
          let sc ← m.stake_currency
          let fc ← m.fiat_currency
          pure { m with stake_amount_fiat := some (f sa sc fc) }
      | none => pure { m with stake_amount_fiat := some 0 }
    let sa ← m.stake_amount
    let sc ← m.stake_currency
    let rem := ["- Remaining: " ++ round_coin_value sa sc]
    match m.fiat_currency with
    | some fc =>
      if fc ≠ "" then do
        let saf ← m.stake_amount_fiat
        let s := ", " ++ round_coin_value saf fc
        pure (m, rem ++ s.data.map (fun c => String.mk [c]))
      else pure (m, rem)
    | none => pure (m, rem)
  else pure (m, [])
/-- Intermediate state of `Telegram._format_exit_msg` after the derived
fields of lines 132-159 are computed: the mutated dictionary plus the
block-local variables of the source. -/
structure ExitCtx where
  m : Msg
  dsec : ℤ
  is_sub_trade : Bool
  is_fill : Bool
  is_sub_profit : Bool
  profit_pref : String
  emo : String
  cp_extra : String

/-- Lines 132-159 of `Telegram._format_exit_msg`: the derived-field
writes (rounded amount, percentage profit, duration), the sub-trade and
fill flags, the emoji selection, the unused `leverage_text` write, and
the two fiat extras. -/
def exit_ctx (collab : Collab) (m0 : Msg) : Option ExitCtx := do
  let amt0 ← m0.amount
  let pr ← m0.profit_ratio
  let cd ← m0.close_date
  let od ← m0.open_date
  let dsec := cd.sec - od.sec
  let m := { m0 with amount := some (roundPy amt0 4),
                     profit_percent := some (roundPy (pr * 100) 2),
                     duration_sec := some dsec,
                     duration_min := some ((dsec : ℚ) / 60) }
  let is_sub_trade := truthyB m.sub_trade
  let is_fill := m.type ∈ [RPCMessageType.exit_fill]
  let pa ← m.profit_amount
  let is_sub_profit : Bool := decide (m.cumulative_profit ≠ some pa)
  let profit_pref := if is_sub_trade then (if is_sub_profit then "Sub " else "Cumulative ") else ""
  let emo ← if is_fill then pure "🔴" else _get_sell_emoji m
  let levtxt := match m.leverage with
    | some l => if l ≠ 0 ∧ l ≠ 1 then "- Leverage: " ++ formatFixed l 1 else ""
    | none => ""
  let m := { m with emoji := some emo, leverage_text := some levtxt }
  let m := exit_profit_extra collab pa m
  let cp_extra ← exit_cp_extra collab is_sub_profit is_sub_trade m
  pure ⟨m, dsec, is_sub_trade, is_fill, is_sub_profit, profit_pref, emo, cp_extra⟩

/-- Lines 161-163 of `Telegram._format_exit_msg`: header, order and
profit lines. -/
def exit_head_lines (c : ExitCtx) : Option (List String) := do
  let exch ← c.m.exchange
  let tid ← c.m.trade_id
  let pair ← c.m.pair
  let pp ← c.m.profit_percent
  let l1 := c.emo ++ " <b>" ++ exch ++ ":::" ++ renderNone c.m.uid ++ ", #" ++ toString tid ++ "</b>"
  let l2 := "* <em>Order - EXIT - " ++ (if c.is_fill then "exited" else "exiting") ++ ", " ++ pair ++ "</em>"
  let l3 := "- " ++ c.profit_pref ++ (if c.is_fill then "Profit, trade" else "Profit, unrealized")
    ++ ": " ++ c.cp_extra ++ " " ++ floatStr pp ++ "%"
  pure [l1, l2, l3]

/-- `Telegram._format_exit_msg` of `channel.py` (lines 131-194), with the
dictionary writes threaded into the returned `Msg`. A rate key present
with value `None` is not distinguished from an absent key (both are
`none`). The contiguous source blocks live in `exit_ctx` and the
`exit_*` helpers above. -/
def _format_exit_msg (collab : Collab) (m0 : Msg) : Option (String × Msg) := do
  let c ← exit_ctx collab m0
  let headLines ← exit_head_lines c
  let peLines ← exit_gain_line c.m
  let bodyLines ← exit_body_lines c.m c.dsec
  let rateLines ← exit_rate_lines c.m
  let mt ← exit_tail collab c.m
  let lines := headLines ++ peLines ++ bodyLines ++ rateLines ++ mt.2
  pure (String.intercalate "\n" lines, mt.1)

/-- `Telegram.compose_message` of `channel.py` (lines 197-247): writes
`uid` and `exchange` into the dictionary, then dispatches on the event
type through the source's if-chain; the final fallback renders the
`msg` passthrough text. -/
def compose_message (cfg : Cfg) (collab : Collab) (m0 : Msg) : Option (String × Msg) := do
  let m := { m0 with uid := cfg.uid, exchange := some (strUpper cfg.exchangeName) }
  if m.type ∈ [RPCMessageType.entry, RPCMessageType.entry_fill] then
    _format_entry_msg cfg collab m
  else if m.type ∈ [RPCMessageType.exit, RPCMessageType.exit_fill] then
    _format_exit_msg collab m
  else if m.type ∈ [RPCMessageType.entry_cancel, RPCMessageType.exit_cancel] then do
    let m := { m with message_side := some (if m.type = .entry_cancel then "enter" else "exit") }
    let exch ← m.exchange
    let tid ← m.trade_id
    let pair ← m.pair
    let l1 := "💢 <b>" ++ exch ++ ":::" ++ renderNone m.uid ++ ", #" ++ toString tid ++ "</b>"
    let l2 := "<em>* Order - " ++ renderNone m.message_side ++ " - " ++ pair ++ ", "
      ++ (if truthyB m.sub_trade then "cancelling partial" else "canceled") ++ "</em>"
    let r ← m.reason
    let l3 := "- Reason: " ++ r
    pure (String.intercalate "\n" [l1, l2, l3], m)
  else if m.type = .protection_trigger then do
    let r ← m.reason
    let pair ← m.pair
    let lt ← m.lock_end_time
    pure ("➰ - Protection triggered due to " ++ r ++ ". " ++ pair
      ++ " will be locked until " ++ lt, m)
  else if m.type = .protection_trigger_global then do
    let r ← m.reason
    let lt ← m.lock_end_time
    pure ("➰ - Protection triggered due to " ++ r
      ++ ". ALL PAIRS will be locked until " ++ lt, m)
  else if m.type = .status then do
    let exch ← m.exchange
    let st ← m.status
    pure (String.intercalate "\n"
      ["⚙ - <b>" ++ exch ++ ":::" ++ renderNone m.uid ++ "</b> -", "- Status: " ++ st], m)
  else if m.type = .warning then do
    let exch ← m.exchange
    let st ← m.status
    pure ("⚠ - <b>" ++ exch ++ ":::" ++ renderNone m.uid ++ "</b> -\n- Warning: "
      ++ m.type.str ++ " / " ++ st, m)
  else if m.type = .startup then do
    let exch ← m.exchange
    let st ← m.status
    pure ("⚙ - <b>" ++ exch ++ ":::" ++ renderNone m.uid ++ "</b> -\n- Type: "
      ++ m.type.str ++ "\n- <em>" ++ st ++ "</em> -", m)
  else if m.type = .strategy_msg then do
    let exch ← m.exchange
    let t ← m.msgtext
    pure (exch ++ ":::" ++ t, m)
  else do
    let exch ← m.exchange
    let t ← m.msgtext
    pure (exch ++ ":::" ++ t, m)

/-- Observable outcome of one `Telegram.send_msg` call: a propagated
exception, an early return without delivery, or the fanout delivery
record. -/
inductive SendResult
  | crashed
  | notSent
  | sent (fan : List (String × DeliveryResult × List Attempt))
  deriving DecidableEq

/-- All `bot.send_message` invocations recorded in a `SendResult`. -/
def SendResult.attempts : SendResult → List Attempt
  | .sent fan => (fan.map (fun r => r.2.2)).flatten
  | _ => []

/-- `Telegram.send_msg` of `channel.py` (lines 75-94): resolve the policy
(`'off'` returns before anything is composed), compose from a `deepcopy`
of the event (line 92, so the composition's dictionary writes never reach
the caller — the returned `Msg` is the incoming one), then deliver with
`disable_notification` exactly when the resolved value is `'silent'`. -/
def send_msg (cfg : Cfg) (collab : Collab) (bot : BotBehavior) (m : Msg) : SendResult × Msg :=
  match resolve_noti cfg.telegramSec.notification_settings m.type m.exit_reason with
  | none => (.crashed, m)
  | some noti =>
    if noti = .s "off" then (.notSent, m)
    else
      match compose_message cfg collab m with
      | none => (.crashed, m)
      | some (message, _) =>
        if message ≠ "" then
          (.sent (_send_msg cfg bot message m.type "HTML" (decide (noti = .s "silent"))), m)
        else (.notSent, m)

/-- The flattened primary (master) chat ids, in configuration insertion
order. -/
def primary_ids (cfg : Cfg) : List String :=
  (cfg.channelSec.master.map (fun master => master.map (fun p => p.2))).flatten

end Channel

/-! ## `freqtrade/rpc/_telegram.py` — the legacy `Telegram` handler -/

namespace TgLegacy

/-- Recipient fanout resolution of `Telegram._send_msg`, `_telegram.py`
lines 63-73: both the master list and the slave `chat_id` come from the
`channel` section; the exclusion rules are the same as `channel.py`'s. -/
def chat_ids (cfg : Cfg) (msg_type : RPCMessageType) : List String :=
  let master_ids := cfg.channelSec.master
  let slave := cfg.channelSec.chat_id
  let ids : List String :=
    if master_ids.length ≠ 0 ∧ msg_type ∉ [RPCMessageType.startup] then
      (master_ids.map (fun master => master.map (fun p => p.2))).flatten
    else []
  if slave ≠ "" ∧ msg_type ∉ [RPCMessageType.startup, RPCMessageType.status] then
    ids ++ [slave]
  else ids

/-- `Telegram._send_msg` of `_telegram.py` (lines 62-97): the delivery
loop is character-for-character the same try/retry/except structure as
`channel.py`'s, so the shared `Channel.deliver_to` embeds its body. -/
def _send_msg (cfg : Cfg) (bot : BotBehavior) (text : String)
    (msg_type : RPCMessageType) (parse_mode : String)
    (disable_notification : Bool) : List (String × DeliveryResult × List Attempt) :=
  (chat_ids cfg msg_type).map
    (fun cid => (cid, Channel.deliver_to bot cid text parse_mode disable_notification))

/-- Policy resolution of `Telegram.send_msg`, `_telegram.py` lines 39-51:
as in `channel.py` but reading the `channel` section and keying the
per-reason mapping by the legacy `sell_reason` field. -/
def resolve_noti (settings : List (String × NotiVal)) (msg_type : RPCMessageType)
    (sell_reason_field : Option String) : Option NotiVal :=
  if msg_type = .exit then
    let sell_noti := (settings.lookup msg_type.str).getD (.d [])
    match sell_noti with
    | .s v => some (.s v)
    | .d mp =>
      match sell_reason_field with
      | none => none
      | some r => some (.s ((mp.lookup r).getD "on"))
  else
    some ((settings.lookup msg_type.str).getD (.s "on"))

/-- `Telegram._get_sell_emoji` of `_telegram.py` (lines 240-248): same
priority chain as `channel.py`'s, with the eight-spoked-asterisk neutral
marker; in this file sell events do carry `sell_reason`. -/
def _get_sell_emoji (m : Msg) : Option String := do
  let pp ← m.profit_percent
  if pp ≥ 5 then pure "🚀"
  else if pp ≥ 0 then pure "✳"
  else do
    let sr ← m.sell_reason
    if sr = "stoploss" then pure "⚠" else pure "❌"

/-- `Telegram._format_buy_msg` of `_telegram.py` (lines 100-126), with
the dictionary writes threaded into the returned `Msg`. -/
def _format_buy_msg (collab : Collab) (m0 : Msg) : Option (String × Msg) := do
  let m := { m0 with stake_amount_fiat := some 0 }
  let m ← match collab.fiat with
    | some f => do
        let sa ← m.stake_amount
        let sc ← m.stake_currency
        let fc ← m.fiat_currency
        pure { m with stake_amount_fiat := some (f sa sc fc) }
    | none => pure m
  let is_fill := m.type = .entry_fill
  let m := { m with emoji := some (if is_fill then "✓" else "🔷") }
  let exch ← m.exchange
  let tid ← m.trade_id
  let pair ← m.pair
  let l1 := renderNone m.emoji ++ " <b>" ++ strUpper exch ++ ":" ++ renderNone m.uid
    ++ ", #" ++ toString tid ++ "</b>"
  let l2 := "* <em>Order BUY " ++ (if is_fill then "- FILLED" else "- CREATED")
    ++ ", " ++ pair ++ "</em>"
  let tagLines := match m.buy_tag with
    | some t => if t ≠ "" then ["- Tag: " ++ t] else []
    | none => []
  let amt ← m.amount
  let l3 := "- Amount: " ++ formatFixed amt 4
  let rateLines ← if m.type = .entry_fill then do
      let orate ← m.open_rate
      pure ["- Rate, open: " ++ formatFixed orate 4]
    else if m.type = .entry then do
      let lim ← m.limit
      let crate ← m.current_rate
      pure ["- Rate, open: " ++ formatFixed lim 4,
            "- Rate, current: " ++ formatFixed crate 4]
    else pure ([] : List String)
  let sa ← m.stake_amount
  let sc ← m.stake_currency
  let saf ← m.stake_amount_fiat
  let total := "- Total: " ++ Channel.round_coin_value sa sc
  let total := if truthyS m.fiat_currency then
      total ++ " | " ++ Channel.round_coin_value saf (renderNone m.fiat_currency)
    else total
  pure (String.intercalate "\n" ([l1, l2] ++ tagLines ++ [l3] ++ rateLines ++ [total]), m)

/-- Intermediate state of `_format_sell_msg` after the derived-field
writes of `_telegram.py` lines 130-146. -/
structure SellCtx where
  m : Msg
  dsec : ℤ
  is_fill : Bool

/-- Lines 130-146 of `Telegram._format_sell_msg`: rounded amount,
percentage profit, duration, forced `buy_tag` key, emoji selection and
the guarded fiat `profit_extra`. -/
def tg_sell_ctx (collab : Collab) (m0 : Msg) : Option SellCtx := do
  let amt0 ← m0.amount
  let pr ← m0.profit_ratio
  let cd ← m0.close_date
  let od ← m0.open_date
  let dsec := cd.sec - od.sec
  let m := { m0 with amount := some (roundPy amt0 4),
                     profit_percent := some (roundPy (pr * 100) 2),
                     duration_sec := some dsec,
                     duration_min := some ((dsec : ℚ) / 60) }
  let is_fill := m.type = .exit_fill
  let emo ← if is_fill then pure "🔴" else _get_sell_emoji m
  let m := { m with emoji := some emo, profit_extra := none }
  let m ← match m.gain, m.fiat_currency, m.stake_currency, collab.fiat with
    | some _, some fc, some sc, some f => do
        let pa ← m.profit_amount
        let pf := f pa sc fc
        pure { m with profit_fiat := some pf,
                      profit_extra := some (formatFixed pa 4 ++ " " ++ sc ++ " / "
                        ++ formatFixed pf 2 ++ " " ++ fc) }
    | _, _, _, _ => pure m
  pure ⟨m, dsec, is_fill⟩

/-- Lines 148-152 of `Telegram._format_sell_msg`: header, order, profit
(the source interpolates the raw `profit_ratio` with `:.2f` here) and
gain lines. -/
def tg_sell_head (c : SellCtx) : Option (List String) := do
  let exch ← c.m.exchange
  let tid ← c.m.trade_id
  let pair ← c.m.pair
  let pr ← c.m.profit_ratio
  let l1 := renderNone c.m.emoji ++ " <b>" ++ exch ++ ":" ++ renderNone c.m.uid
    ++ ", #" ++ toString tid ++ "</b>"
  let l2 := "* <em>Order SELL " ++ (if c.is_fill then "- FILLED" else "- CREATED")
    ++ ", " ++ pair ++ "</em>"
  let l3 := "- " ++ (if c.is_fill then "Profit" else "Opportunity") ++ ": "
    ++ formatFixed pr 2 ++ "%"
  let peLines ← if truthyS c.m.profit_extra then do
      let g ← c.m.gain
      pure ["- " ++ pyCapitalize g ++ ": " ++ renderNone c.m.profit_extra]
    else pure ([] : List String)
  pure ([l1, l2, l3] ++ peLines)

/-- Lines 153-167 of `Telegram._format_sell_msg`: tag, reason (upper-cased
with no underscore replacement), duration, amount and rate lines. -/
def tg_sell_body (c : SellCtx) : Option (List String) := do
  let l4 := "- BUY Tag: " ++ renderNone c.m.buy_tag
  let etLines := match c.m.exit_tag with
    | some t => if t ≠ "" then ["- SELL Tag: " ++ t] else []
    | none => []
  let sr ← c.m.sell_reason
  let l5 := "- Reason: " ++ (if sr = "" then "" else strUpper sr)
  let l6 := "- Duration: " ++ timedeltaStr c.dsec ++ " ("
    ++ formatFixed ((c.dsec : ℚ) / 60) 1 ++ "m)"
  let amtR ← c.m.amount
  let l7 := "- Amount: " ++ formatFixed amtR 4
  let orate ← c.m.open_rate
  let l8 := "- Rate, open: " ++ formatFixed orate 4
  let rateLines ← if c.m.type = .exit then do
      let crate ← c.m.current_rate
      let lim ← c.m.limit
      pure ["- Rate, current: " ++ formatFixed crate 4,
            "- Rate, close: " ++ formatFixed lim 4]
    else if c.m.type = .exit_fill then do
      let lim ← c.m.limit
      pure ["- Rate, close: " ++ formatFixed lim 4]
    else pure ([] : List String)
  pure ([l4] ++ etLines ++ [l5, l6, l7, l8] ++ rateLines)

/-- `Telegram._format_sell_msg` of `_telegram.py` (lines 129-168). -/
def _format_sell_msg (collab : Collab) (m0 : Msg) : Option (String × Msg) := do
  let c ← tg_sell_ctx collab m0
  let hd ← tg_sell_head c
  let bd ← tg_sell_body c
  pure (String.intercalate "\n" (hd ++ bd), c.m)

/-- `Telegram.compose_message` of `_telegram.py` (lines 170-238): writes
`uid` and `exchange` into the *caller's* dictionary (no copy is taken
anywhere in this file), then dispatches; an unknown type raises
`Warning` (embedded as `none`). -/
def compose_message (cfg : Cfg) (collab : Collab) (m0 : Msg) : Option (String × Msg) := do
  let m := { m0 with uid := cfg.uid, exchange := some (strUpper cfg.exchangeName) }
  if m.type ∈ [RPCMessageType.entry, RPCMessageType.entry_fill] then
    _format_buy_msg collab m
  else if m.type ∈ [RPCMessageType.exit, RPCMessageType.exit_fill] then
    _format_sell_msg collab m
  else if m.type ∈ [RPCMessageType.entry_cancel, RPCMessageType.exit_cancel] then do
    let m := { m with side := some (if m.type = .entry_cancel then "BUY" else "SELL") }
    let exch ← m.exchange
    let tid ← m.trade_id
    let pair ← m.pair
    let r ← m.reason
    let l1 := "⚠ <b>" ++ exch ++ ":" ++ renderNone m.uid ++ ", #" ++ toString tid ++ "</b>"
    let l2 := "<em>* Order " ++ renderNone m.side ++ ", " ++ pair ++ ", canceled</em>"
    let l3 := "- Reason: " ++ r
    pure (String.intercalate "\n" [l1, l2, l3], m)
  else if m.type = .protection_trigger then do
    let r ← m.reason
    let pair ← m.pair
    let lt ← m.lock_end_time
    pure ("*Protection* triggered due to " ++ r ++ ". `" ++ pair
      ++ "` will be locked until `" ++ lt ++ "`", m)
  else if m.type = .protection_trigger_global then do
    let r ← m.reason
    let lt ← m.lock_end_time
    pure ("*Protection* triggered due to " ++ r
      ++ ". *All pairs* will be locked until `" ++ lt ++ "`", m)
  else if m.type = .status then do
    let exch ← m.exchange
    let st ← m.status
    pure (String.intercalate "\n"
      ["⚙ <b>" ++ exch ++ ":" ++ renderNone m.uid ++ "</b>", "- Status: " ++ st], m)
  else if m.type = .warning then do
    let exch ← m.exchange
    let st ← m.status
    pure ("⚠ <b>" ++ exch ++ ":" ++ renderNone m.uid ++ "</b>\n* Warning: "
      ++ m.type.str ++ " " ++ st, m)
  else if m.type = .startup then do
    let exch ← m.exchange
    let st ← m.status
    pure ("<b>" ++ exch ++ ":" ++ renderNone m.uid ++ "</b>\n- Type: "
      ++ m.type.str ++ "\n* <em>" ++ st ++ "</em>", m)
  else none

/-- `Telegram.send_msg` of `_telegram.py` (lines 36-59): policy as in
`channel.py` (keyed by `sell_reason`), but the message is composed from
the *caller's* dictionary — its mutations are the caller's to see — and
the send is unconditional (no truthiness check on the composed text).
When composition raises, the partial in-place mutations made before the
raise are not modelled (the incoming `Msg` is returned unchanged). -/
def send_msg (cfg : Cfg) (collab : Collab) (bot : BotBehavior) (m : Msg) :
    Channel.SendResult × Msg :=
  match resolve_noti cfg.channelSec.notification_settings m.type m.sell_reason with
  | none => (.crashed, m)
  | some noti =>
    if noti = .s "off" then (.notSent, m)
    else
      match compose_message cfg collab m with
      | none => (.crashed, m)
      | some (message, m2) =>
        (.sent (_send_msg cfg bot message m.type "HTML" (decide (noti = .s "silent"))), m2)

end TgLegacy

/-! ## `freqtrade/rpc/webhook.py` — the `Webhook` handler -/

namespace Webhook

/-- Outcome of one `requests.post` call: success or a raised
`requests.RequestException`. -/
inductive WebOutcome
  | ok | requestException
  deriving DecidableEq

/-- One webhook transport call, with the encoding format used, the
payload sent and the basic-auth credentials attached (if any). -/
structure WebCall where
  format : String
  payload : List (String × String)
  auth : Option (String × String)
  deriving DecidableEq

/-- The HTTP transport collaborator. -/
def WebTransport := WebCall → WebOutcome

/-- `Webhook.__init__` of `webhook.py` (lines 27-33): the configured
format (`.get('format', 'form')` at the call site) is validated once at
construction; anything but `form`/`json` raises `NotImplementedError`. -/
def init (format : String) : Option String :=
  if format = "form" ∨ format = "json" then some format else none

/-- `Webhook._send_msg` of `webhook.py` (lines 73-93): ensure the
`exchange` key, encode per the configured format (an unknown format
would raise before any call — unreachable after `init`), attach optional
basic auth, then exactly one `requests.post`; a `RequestException` is
caught and logged (lines 92-93) — never re-raised, never retried. -/
def _send_msg (format : String) (auth : Option (String × String))
    (transport : WebTransport) (payload : List (String × String))
    (exchangeName : String) : Option Unit × List WebCall :=
  let payload := if (payload.lookup "exchange").isNone then
      payload ++ [("exchange", exchangeName)]
    else payload
  if format = "form" ∨ format = "json" then
    let call : WebCall := ⟨format, payload, auth⟩
    match transport call with
    | .ok => (some (), [call])
    | .requestException => (some (), [call])
  else (none, [])

end Webhook

/-! ## Shared lemmas about the delivery client -/

/-- The calls made by one delivery: two identical attempts when the first
raises `NetworkError`, otherwise one. -/
theorem deliver_to_calls (bot : BotBehavior) (cid text parse : String) (dis : Bool) :
    (Channel.deliver_to bot cid text parse dis).2
      = if bot ⟨cid, text, parse, dis⟩ 0 = BotOutcome.networkError
        then [⟨cid, text, parse, dis⟩, ⟨cid, text, parse, dis⟩]
        else [⟨cid, text, parse, dis⟩] := by
  unfold Channel.deliver_to
  cases h0 : bot ⟨cid, text, parse, dis⟩ 0 <;> simp [h0]
  cases h1 : bot ⟨cid, text, parse, dis⟩ 1 <;> simp

/-- Every call of one delivery carries the `disable_notification` flag it
was invoked with. -/
theorem deliver_to_calls_disable (bot : BotBehavior) (cid text parse : String) (dis : Bool) :
    ((Channel.deliver_to bot cid text parse dis).2.all
      (fun a => a.disable_notification == dis)) = true := by
  rw [deliver_to_calls]
  split <;> simp

/-- The fanout produces one delivery record per resolved chat id. -/
theorem fan_ids (cfg : Cfg) (bot : BotBehavior) (text : String) (t : RPCMessageType)
    (parse : String) (dis : Bool) :
    (Channel._send_msg cfg bot text t parse dis).map Prod.fst = Channel.chat_ids cfg t := by
  unfold Channel._send_msg
  simp [Function.comp_def]

/-- Every `bot.send_message` call of a fanout carries the
`disable_notification` flag the fanout was invoked with. -/
theorem fan_attempts_disable (cfg : Cfg) (bot : BotBehavior) (text : String)
    (t : RPCMessageType) (parse : String) (dis : Bool) :
    ((Channel.SendResult.sent (Channel._send_msg cfg bot text t parse dis)).attempts.all
      (fun a => a.disable_notification == dis)) = true := by
  unfold Channel.SendResult.attempts Channel._send_msg
  rw [List.all_eq_true]
  intro a ha
  rw [List.mem_flatten] at ha
  obtain ⟨l, hl, hal⟩ := ha
  rw [List.mem_map] at hl
  obtain ⟨r, hr, rfl⟩ := hl
  rw [List.mem_map] at hr
  obtain ⟨cid, _, rfl⟩ := hr
  have h := deliver_to_calls_disable bot cid text parse dis
  rw [List.all_eq_true] at h
  exact h a hal

/-! ## Claim theorems -/

/- Batteries marks the rational operations irreducible; concrete
evaluations in the witnesses below need them unfolded. -/
attribute [local semireducible] Rat.mul Rat.add Rat.sub Rat.inv

/-- C1: delivery to one recipient attempts the send once; on a
transient/network failure it retries exactly once with parameters
identical to the first attempt (same chat id, text, parse mode and
silent flag); whether the retry fails or the failure is permanent, no
exception propagates (`deliver_to` is total), so the fanout produces a
delivery record for every recipient in the list. -/
theorem C1_retry_once_identical_and_fanout_continues (bot : BotBehavior) (cfg : Cfg)
    (cid text parse : String) (dis : Bool) (t : RPCMessageType) :
    (Channel.deliver_to bot cid text parse dis).2
      = (if bot ⟨cid, text, parse, dis⟩ 0 = BotOutcome.networkError
         then [⟨cid, text, parse, dis⟩, ⟨cid, text, parse, dis⟩]
         else [⟨cid, text, parse, dis⟩])
    ∧ (Channel._send_msg cfg bot text t parse dis).map Prod.fst = Channel.chat_ids cfg t :=
  ⟨deliver_to_calls bot cid text parse dis, fan_ids cfg bot text t parse dis⟩

/-- For an event other than `Startup`, the recipient list is the
flattened primary ids followed by the secondary exactly when a secondary
is configured and the event is not `Status`. -/
theorem chat_ids_eq (cfg : Cfg) (t : RPCMessageType) (ht : t ≠ RPCMessageType.startup) :
    Channel.chat_ids cfg t
      = Channel.primary_ids cfg
        ++ (if cfg.telegramSec.chat_id ≠ "" ∧ t ≠ RPCMessageType.status
            then [cfg.telegramSec.chat_id] else []) := by
  have hmaster : (if cfg.channelSec.master.length ≠ 0 ∧ t ∉ [RPCMessageType.startup] then
      (cfg.channelSec.master.map (fun master => master.map (fun p => p.2))).flatten else [])
      = Channel.primary_ids cfg := by
    unfold Channel.primary_ids
    by_cases hm : cfg.channelSec.master = []
    · simp [hm]
    · have hl : cfg.channelSec.master.length ≠ 0 := by simpa [List.length_eq_zero] using hm
      simp [hl, ht]
  simp only [Channel.chat_ids]
  rw [hmaster]
  by_cases hs : cfg.telegramSec.chat_id = ""
  · simp [hs]
  · by_cases hstat : t = RPCMessageType.status
    · simp [hs, hstat]
    · simp [hs, hstat, ht]

/-- C2: with a configured secondary recipient, an `Exit` event fans out
to all primary ids (configuration insertion order) then the secondary,
N+1 delivery attempts in total; `Startup` resolves to no recipient at
all; `Status` resolves to the primary ids only. -/
theorem C2_fanout_per_event_type (cfg : Cfg) (bot : BotBehavior) (text parse : String)
    (dis : Bool) (h : cfg.telegramSec.chat_id ≠ "") :
    Channel.chat_ids cfg .exit = Channel.primary_ids cfg ++ [cfg.telegramSec.chat_id]
    ∧ (Channel._send_msg cfg bot text .exit parse dis).length
        = (Channel.primary_ids cfg).length + 1
    ∧ Channel.chat_ids cfg .startup = []
    ∧ Channel.chat_ids cfg .status = Channel.primary_ids cfg := by
  have hexit : Channel.chat_ids cfg .exit
      = Channel.primary_ids cfg ++ [cfg.telegramSec.chat_id] := by
    rw [chat_ids_eq cfg .exit (by decide)]
    simp [h]
  refine ⟨hexit, ?_, ?_, ?_⟩
  · have hlen : (Channel._send_msg cfg bot text .exit parse dis).length
        = (Channel.chat_ids cfg .exit).length := by
      unfold Channel._send_msg; simp
    rw [hlen, hexit]
    simp
  · unfold Channel.chat_ids
    simp
  · rw [chat_ids_eq cfg .status (by decide)]
    simp

/-- The configuration of C2's witness: one master entry holding two
primary ids, and a configured secondary. -/
def cfgC2 : Cfg :=
  { telegramSec := { chat_id := "slv" },
    channelSec := { master := [[("a-x", "id1"), ("b-y", "id2")]] } }

/-- Concrete instance discharging C2's configured-secondary hypothesis. -/
theorem C2_witness :
    Channel.chat_ids cfgC2 .exit = Channel.primary_ids cfgC2 ++ [cfgC2.telegramSec.chat_id]
    ∧ (Channel._send_msg cfgC2 (fun _ _ => .ok) "hello" .exit "HTML" false).length
        = (Channel.primary_ids cfgC2).length + 1
    ∧ Channel.chat_ids cfgC2 .startup = []
    ∧ Channel.chat_ids cfgC2 .status = Channel.primary_ids cfgC2 :=
  C2_fanout_per_event_type cfgC2 (fun _ _ => .ok) "hello" "HTML" false (by decide)

/-- C3: when the resolved policy is `off`, `send_msg` returns before
composing — the result is `notSent` independent of the collaborators and
no channel send happens; when it is `silent`, every recorded
`bot.send_message` invocation carries `disable_notification = true`;
when it is `on`, every invocation carries the flag `false`. -/
theorem C3_policy_gate (cfg : Cfg) (collab : Collab) (bot : BotBehavior) (m : Msg) :
    (Channel.resolve_noti cfg.telegramSec.notification_settings m.type m.exit_reason
        = some (NotiVal.s "off")
      → Channel.send_msg cfg collab bot m = (.notSent, m))
    ∧ (Channel.resolve_noti cfg.telegramSec.notification_settings m.type m.exit_reason
        = some (NotiVal.s "silent")
      → ((Channel.send_msg cfg collab bot m).1.attempts.all
          (fun a => a.disable_notification == true)) = true)
    ∧ (Channel.resolve_noti cfg.telegramSec.notification_settings m.type m.exit_reason
        = some (NotiVal.s "on")
      → ((Channel.send_msg cfg collab bot m).1.attempts.all
          (fun a => a.disable_notification == false)) = true) := by
  refine ⟨?_, ?_, ?_⟩ <;> intro h <;> simp only [Channel.send_msg, h]
  · simp
  · cases hc : Channel.compose_message cfg collab m with
    | none => simp [Channel.SendResult.attempts]
    | some p =>
      obtain ⟨text, m2⟩ := p
      by_cases htext : text ≠ ""
      · simp only [if_neg (by decide : ¬(NotiVal.s "silent" = NotiVal.s "off")), if_pos htext]
        simpa using fan_attempts_disable cfg bot text m.type "HTML" true
      · simp only [if_neg (by decide : ¬(NotiVal.s "silent" = NotiVal.s "off")), if_neg htext]
        simp [Channel.SendResult.attempts]
  · cases hc : Channel.compose_message cfg collab m with
    | none => simp [Channel.SendResult.attempts]
    | some p =>
      obtain ⟨text, m2⟩ := p
      by_cases htext : text ≠ ""
      · simp only [if_neg (by decide : ¬(NotiVal.s "on" = NotiVal.s "off")), if_pos htext]
        simpa using fan_attempts_disable cfg bot text m.type "HTML" false
      · simp only [if_neg (by decide : ¬(NotiVal.s "on" = NotiVal.s "off")), if_neg htext]
        simp [Channel.SendResult.attempts]

/-- A status event for C3's witness. -/
def mC3 : Msg := { type := .status, status := some "running" }

/-- C3 witness configuration with a policy of `off` for status events. -/
def cfgC3off : Cfg :=
  { exchangeName := "binance",
    telegramSec := { chat_id := "slv",
                     notification_settings := [("status", NotiVal.s "off")] } }

/-- C3 witness configuration with a policy of `silent` for status events. -/
def cfgC3silent : Cfg :=
  { exchangeName := "binance",
    telegramSec := { chat_id := "slv",
                     notification_settings := [("status", NotiVal.s "silent")] } }

/-- C3 witness configuration with no status entry (defaulting to `on`). -/
def cfgC3on : Cfg :=
  { exchangeName := "binance", telegramSec := { chat_id := "slv" } }

/-- Concrete instances discharging each branch of C3's hypotheses. -/
theorem C3_witness :
    Channel.send_msg cfgC3off {} (fun _ _ => .ok) mC3 = (.notSent, mC3)
    ∧ ((Channel.send_msg cfgC3silent {} (fun _ _ => .ok) mC3).1.attempts.all
        (fun a => a.disable_notification == true)) = true
    ∧ ((Channel.send_msg cfgC3on {} (fun _ _ => .ok) mC3).1.attempts.all
        (fun a => a.disable_notification == false)) = true :=
  ⟨(C3_policy_gate cfgC3off {} (fun _ _ => .ok) mC3).1 (by decide),
   (C3_policy_gate cfgC3silent {} (fun _ _ => .ok) mC3).2.1 (by decide),
   (C3_policy_gate cfgC3on {} (fun _ _ => .ok) mC3).2.2 (by decide)⟩

/-- A complete exit-fill event with exit reason `stoploss`, used to show
C4's claimed per-reason resolution does not happen for `ExitFill`. -/
def mC4 : Msg :=
  { type := .exit_fill, pair := some "ETH/USDT", trade_id := some 3,
    amount := some 1, open_rate := some 100, close_rate := some 110,
    open_date := some { sec := 0 }, close_date := some { sec := 600 },
    profit_ratio := some (1/10), profit_amount := some 10, cumulative_profit := some 10,
    sub_trade := some false, enter_tag := some "t", exit_reason := some "stoploss",
    direction := some "Long" }

/-- C4 configuration whose `exit_fill` policy entry is the per-reason
mapping of the claim's concrete scenario. -/
def cfgC4 : Cfg :=
  { exchangeName := "binance",
    telegramSec := { chat_id := "slv",
                     notification_settings :=
                       [("exit_fill", NotiVal.d [("default", "on"), ("stoploss", "silent")])] } }

/-- C4 counterexample: (i) for `Exit` with mapping
`{default: off, stoploss: silent}` and reason `roi` the code resolves
`on`, not the mapping's configured default `off` — the hardcoded
`default_noti` is used, never the `default` key; (ii) for `ExitFill`
the mapping entry is taken verbatim (no per-reason lookup), so (iii)
the stoploss fill of the claim's scenario is delivered once with
`disable_notification = false` instead of silently. -/
theorem C4_counterexample :
    Channel.resolve_noti [("exit", NotiVal.d [("default", "off"), ("stoploss", "silent")])]
        .exit (some "roi") = some (NotiVal.s "on")
    ∧ Channel.resolve_noti cfgC4.telegramSec.notification_settings .exit_fill (some "stoploss")
        = some (NotiVal.d [("default", "on"), ("stoploss", "silent")])
    ∧ ((Channel.send_msg cfgC4 {} (fun _ _ => .ok) mC4).1.attempts.map
        (fun a => a.disable_notification)) = [false] := by decide

/-- C4 amended: only `Exit` events use the per-reason mapping, resolving
to the mapping's value for the exit reason and falling back to the
hardcoded `'on'` (the mapping's `default` entry is never consulted);
every other event type — `ExitFill` included — takes the table entry
as-is (default `'on'`), so a mapping entry for `ExitFill` never silences
delivery. The claim's concrete scenario does hold for `Exit`:
`{default: on, stoploss: silent}` yields `silent` for reason `stoploss`
and `on` for reason `roi`. -/
theorem C4_amended_policy_resolution (settings : List (String × NotiVal))
    (mp : List (String × String)) (r : String) (t : RPCMessageType) (er : Option String)
    (hmp : settings.lookup "exit" = some (NotiVal.d mp)) (ht : t ≠ RPCMessageType.exit) :
    Channel.resolve_noti settings .exit (some r) = some (NotiVal.s ((mp.lookup r).getD "on"))
    ∧ Channel.resolve_noti settings t er
        = some ((settings.lookup t.str).getD (NotiVal.s "on"))
    ∧ Channel.resolve_noti [("exit", NotiVal.d [("default", "on"), ("stoploss", "silent")])]
        .exit (some "stoploss") = some (NotiVal.s "silent")
    ∧ Channel.resolve_noti [("exit", NotiVal.d [("default", "on"), ("stoploss", "silent")])]
        .exit (some "roi") = some (NotiVal.s "on") := by
  refine ⟨?_, ?_, by decide, by decide⟩
  · unfold Channel.resolve_noti
    simp [RPCMessageType.str, hmp]
  · unfold Channel.resolve_noti
    simp [ht]

/-- Concrete instance discharging C4's hypotheses: a mapping entry for
`exit` and a non-exit event type. -/
theorem C4_witness :
    Channel.resolve_noti [("exit", NotiVal.d [("roi", "off")])] .exit (some "roi")
        = some (NotiVal.s (([("roi", "off")].lookup "roi").getD "on"))
    ∧ Channel.resolve_noti [("exit", NotiVal.d [("roi", "off")])] .status none
        = some (([("exit", NotiVal.d [("roi", "off")])].lookup
            (RPCMessageType.status).str).getD (NotiVal.s "on"))
    ∧ Channel.resolve_noti [("exit", NotiVal.d [("default", "on"), ("stoploss", "silent")])]
        .exit (some "stoploss") = some (NotiVal.s "silent")
    ∧ Channel.resolve_noti [("exit", NotiVal.d [("default", "on"), ("stoploss", "silent")])]
        .exit (some "roi") = some (NotiVal.s "on") :=
  C4_amended_policy_resolution [("exit", NotiVal.d [("roi", "off")])] [("roi", "off")]
    "roi" .status none (by decide) (by decide)

/-- The configuration of C5's concrete scenario. -/
def cfgC5 : Cfg := { uid := some "u1", exchangeName := "binance" }

/-- The event of C5's concrete scenario. Fields the claim leaves
unlisted but the composer reads unconditionally (`direction`) are
populated benignly; the dates carry microseconds to exercise the
truncation. -/
def mC5 : Msg :=
  { type := .exit_fill, pair := some "BTC/USDT", trade_id := some 7,
    amount := some (12345678/100000000), open_rate := some 50000, close_rate := some 51000,
    open_date := some { sec := 1000000, usec := 250000 },
    close_date := some { sec := 1003630, usec := 750000 },
    profit_ratio := some (2/100), profit_amount := some 12, cumulative_profit := some 12,
    sub_trade := some false, enter_tag := some "breakout", exit_reason := some "roi",
    direction := some "Long" }

/-- C5: composing the claim's ExitFill event succeeds; the full text is
pinned, and it contains `2.0%` (not a bare `2%`), `1:00:30 (60.5m)`,
`ROI`, and the 4-decimal amount `0.1235`. -/
theorem C5_exit_fill_concrete_scenario :
    (Channel.compose_message cfgC5 {} mC5).map Prod.fst
      = some ("🔴 <b>BINANCE:::u1, #7</b>\n* <em>Order - EXIT - exited, BTC/USDT</em>\n- Profit, trade:  2.0%\n- ENTRY Tag: breakout\n- Reason: ROI\n- Duration: 1:00:30 (60.5m)\n- Amount: 0.1235\n- Direction: Long\n- Rate, open: 50000.0000\n- Rate, close: 51000.0000")
    ∧ ((Channel.compose_message cfgC5 {} mC5).map
        (fun p => strHas p.1 "2.0%" && strHas p.1 "1:00:30 (60.5m)"
          && strHas p.1 "ROI" && strHas p.1 "0.1235")) = some true := by decide

/-- The configuration of C6's failing input. -/
def cfgC6 : Cfg := { uid := some "u1", exchangeName := "binance" }

/-- C6's failing input: a pending (not filled) Exit event with negative
profit, exit reason `stoploss`, and — as everywhere else in
`channel.py`'s event vocabulary — no legacy `sell_reason` key. All other
fields the pending-exit path reads are present. -/
def mC6 : Msg :=
  { type := .exit, pair := some "BTC/USDT", trade_id := some 9,
    amount := some 1, open_rate := some 100, current_rate := some 99,
    order_rate := some 99,
    open_date := some { sec := 0 }, close_date := some { sec := 60 },
    profit_ratio := some (-1/100), profit_amount := some (-1),
    cumulative_profit := some (-1), sub_trade := some false,
    enter_tag := some "t", exit_reason := some "stoploss",
    direction := some "Long" }

/-- C6, evaluated at the failing input: the emoji priority chain's last
two tiers read the legacy `sell_reason` key, so for a losing pending
exit carrying only `exit_reason` the lookup raises `KeyError` and the
whole composition fails — the claim's warning marker is never selected
— while the identical event with a `sell_reason` key composes fine and
does select the warning marker. -/
theorem C6_sell_reason_keyerror :
    Channel._get_sell_emoji { mC6 with profit_percent := some (-1) } = none
    ∧ (Channel.compose_message cfgC6 {} mC6).map Prod.fst = none
    ∧ mC6.exit_reason = some "stoploss"
    ∧ mC6.sell_reason = none
    ∧ ((Channel.compose_message cfgC6 {} { mC6 with sell_reason := some "stoploss" }).map
        (fun p => strHas p.1 "⚠")) = some true := by decide

/-- C7: for a webhook constructed with a valid format, `_send_msg` makes
exactly one transport call and returns normally whatever the outcome —
transient or permanent failure included, there is no retry and no
propagated exception — while the chat channel's delivery makes a second
call exactly when the first raises `NetworkError`. -/
theorem C7_webhook_no_retry (format : String) (auth : Option (String × String))
    (transport : Webhook.WebTransport) (payload : List (String × String)) (exch : String)
    (bot : BotBehavior) (cid text parse : String) (dis : Bool)
    (h : Webhook.init format = some format) :
    (Webhook._send_msg format auth transport payload exch).2.length = 1
    ∧ (Webhook._send_msg format auth transport payload exch).1 = some ()
    ∧ (Channel.deliver_to bot cid text parse dis).2.length
        = (if bot ⟨cid, text, parse, dis⟩ 0 = BotOutcome.networkError then 2 else 1) := by
  have hv : format = "form" ∨ format = "json" := by
    unfold Webhook.init at h
    by_contra hc
    simp [hc] at h
  have hmain : ∀ fv : String, (fv = "form" ∨ fv = "json") →
      (Webhook._send_msg fv auth transport payload exch).2.length = 1
      ∧ (Webhook._send_msg fv auth transport payload exch).1 = some () := by
    rintro fv (rfl | rfl) <;>
      · unfold Webhook._send_msg
        constructor <;>
          · split <;> simp_all <;> split <;> rfl
  refine ⟨(hmain format hv).1, (hmain format hv).2, ?_⟩
  rw [deliver_to_calls]
  split <;> simp

/-- Concrete instance discharging C7's valid-format hypothesis, with a
transport that always fails. -/
theorem C7_witness :
    (Webhook._send_msg "form" none (fun _ => .requestException) [("status", "x")] "binance").2.length = 1
    ∧ (Webhook._send_msg "form" none (fun _ => .requestException) [("status", "x")] "binance").1 = some ()
    ∧ (Channel.deliver_to (fun _ _ => .networkError) "id1" "t" "HTML" false).2.length
        = (if (fun (_ : Attempt) (_ : ℕ) => BotOutcome.networkError) ⟨"id1", "t", "HTML", false⟩ 0
             = BotOutcome.networkError then 2 else 1) :=
  C7_webhook_no_retry "form" none (fun _ => .requestException) [("status", "x")] "binance"
    (fun _ _ => .networkError) "id1" "t" "HTML" false (by decide)

/-- C8 amended: for every entry-cancel or exit-cancel event, the action
word is `cancelling partial` exactly when `sub_trade` is truthy and
`canceled` otherwise; the reason line renders the event's `reason` field
verbatim — there is no `"timeout"` fallback (a missing reason fails the
composition with a `KeyError`) and `exit_reason` never overrides it. -/
theorem C8_amended_cancel_composition (cfg : Cfg) (collab : Collab) (m : Msg)
    (p : String) (tid : ℤ) (r : String)
    (ht : m.type = .entry_cancel ∨ m.type = .exit_cancel)
    (hp : m.pair = some p) (hi : m.trade_id = some tid) :
    (m.reason = none → Channel.compose_message cfg collab m = none)
    ∧ (m.reason = some r →
        Channel.compose_message cfg collab m
          = some (String.intercalate "\n"
              ["💢 <b>" ++ strUpper cfg.exchangeName ++ ":::" ++ renderNone cfg.uid
                 ++ ", #" ++ toString tid ++ "</b>",
               "<em>* Order - "
                 ++ (if m.type = .entry_cancel then "enter" else "exit") ++ " - " ++ p ++ ", "
                 ++ (if truthyB m.sub_trade then "cancelling partial" else "canceled") ++ "</em>",
               "- Reason: " ++ r],
             { m with uid := cfg.uid, exchange := some (strUpper cfg.exchangeName),
                      message_side := some (if m.type = .entry_cancel then "enter"
                        else "exit") })) := by
  constructor
  · intro hr
    rcases ht with h | h <;> simp [Channel.compose_message, h, hp, hi, hr]
  · intro hr
    rcases ht with h | h <;> simp [Channel.compose_message, h, hp, hi, hr, renderNone]

/-- The configuration of C8's counterexample and witness. -/
def cfgC8 : Cfg := { uid := some "u1", exchangeName := "binance" }

/-- C8 counterexample input: an exit-cancel event that supplies no
`reason` but does supply an `exit_reason`. -/
def mC8a : Msg :=
  { type := .exit_cancel, pair := some "BTC/USDT", trade_id := some 4,
    exit_reason := some "roi", sub_trade := some true }

/-- C8 counterexample input: an exit-cancel sub-trade event with both a
`reason` and a distinct `exit_reason`. -/
def mC8b : Msg :=
  { type := .exit_cancel, pair := some "BTC/USDT", trade_id := some 4,
    reason := some "user_request", exit_reason := some "roi", sub_trade := some true }

/-- C8 counterexample: with no `reason` supplied, composition fails with
a `KeyError` instead of falling back to the literal `"timeout"`; with a
`reason` supplied, the reason line renders it verbatim and the supplied
`exit_reason` (`roi`) appears nowhere — it never overrides the field. -/
theorem C8_counterexample :
    (Channel.compose_message cfgC8 {} mC8a).map Prod.fst = none
    ∧ ((Channel.compose_message cfgC8 {} mC8b).map
        (fun pr => strHas pr.1 "- Reason: user_request" && !(strHas pr.1 "roi")
          && strHas pr.1 "cancelling partial")) = some true := by decide

/-- Concrete instance of C8's amended composition at an exit-cancel
sub-trade event with a supplied reason. -/
theorem C8_witness :
    Channel.compose_message cfgC8 {} mC8b
      = some (String.intercalate "\n"
          ["💢 <b>" ++ strUpper cfgC8.exchangeName ++ ":::" ++ renderNone cfgC8.uid
             ++ ", #" ++ toString (4 : ℤ) ++ "</b>",
           "<em>* Order - "
             ++ (if mC8b.type = .entry_cancel then "enter" else "exit") ++ " - " ++ "BTC/USDT" ++ ", "
             ++ (if truthyB mC8b.sub_trade then "cancelling partial" else "canceled") ++ "</em>",
           "- Reason: " ++ "user_request"],
         { mC8b with uid := cfgC8.uid, exchange := some (strUpper cfgC8.exchangeName),
                     message_side := some (if mC8b.type = .entry_cancel then "enter"
                       else "exit") }) :=
  (C8_amended_cancel_composition cfgC8 {} mC8b "BTC/USDT" 4 "user_request"
    (Or.inr rfl) rfl rfl).2 rfl

/-- C9 amended: the `channel.py` handler composes from a `deepcopy`
(line 92), so its `send_msg` returns the caller's event record unchanged
for every configuration, collaborator, bot and event; the legacy
`_telegram.py` handler violates the claim (see the counterexample). -/
theorem C9_amended_channel_preserves_event (cfg : Cfg) (collab : Collab)
    (bot : BotBehavior) (m : Msg) :
    (Channel.send_msg cfg collab bot m).2 = m := by
  cases h : Channel.resolve_noti cfg.telegramSec.notification_settings m.type m.exit_reason with
  | none => simp [Channel.send_msg, h]
  | some noti =>
    simp only [Channel.send_msg, h]
    by_cases hoff : noti = NotiVal.s "off"
    · simp [hoff]
    · simp only [if_neg hoff]
      cases hc : Channel.compose_message cfg collab m with
      | none => simp
      | some pr =>
        obtain ⟨t2, m2⟩ := pr
        by_cases ht2 : t2 ≠ "" <;> simp [ht2]

/-- The configuration of C9's counterexample. -/
def cfgC9 : Cfg :=
  { uid := some "cfg-uid", exchangeName := "kraken", channelSec := { chat_id := "slv" } }

/-- A status event carrying its own `uid`, handed to the legacy handler. -/
def mC9 : Msg := { type := .status, status := some "running", uid := some "orig" }

/-- C9 counterexample: `_telegram.py`'s `send_msg` composes on the
caller's dictionary, overwriting `uid` and adding `exchange` — the
caller's record is visibly changed, falsifying the claim for that
handler. -/
theorem C9_counterexample :
    (TgLegacy.send_msg cfgC9 {} (fun _ _ => .ok) mC9).2 ≠ mC9
    ∧ (TgLegacy.send_msg cfgC9 {} (fun _ _ => .ok) mC9).2.uid = some "cfg-uid"
    ∧ mC9.uid = some "orig"
    ∧ (TgLegacy.send_msg cfgC9 {} (fun _ _ => .ok) mC9).2.exchange = some "KRAKEN" := by
  decide

/-- The configuration of C10's input. -/
def cfgC10 : Cfg := { uid := some "u1", exchangeName := "binance" }

/-- C10's event: an exit fill for a sub-trade whose `profit_amount`
differs from `cumulative_profit`, with every field the guarded fiat
paths need (`gain`, `stake_currency`, `fiat_currency` all present). -/
def mC10 : Msg :=
  { type := .exit_fill, pair := some "ETH/USDT", trade_id := some 11,
    amount := some 2, open_rate := some 100, close_rate := some 105,
    open_date := some { sec := 0 }, close_date := some { sec := 120 },
    profit_ratio := some (5/100), profit_amount := some 10,
    cumulative_profit := some 25, sub_trade := some true,
    enter_tag := some "t", exit_reason := some "roi", direction := some "Long",
    gain := some "profit", stake_currency := some "USDT", fiat_currency := some "USD",
    stake_amount := some 200 }

/-- A converter for C10's positive case. -/
def convC10 : FiatConv := fun a _ _ => a

/-- C10: with no fiat converter configured, composing this sub-trade
exit event fails — the cumulative-profit extra (lines 156-159) calls
the converter with no availability guard — even though every *guarded*
fiat path handles the absent converter; the same event with a converter
composes fine, so composition is not total over converter-less events
that satisfy the guarded paths' precondition. -/
theorem C10_unguarded_cumulative_fiat :
    (Channel.compose_message cfgC10 { fiat := none } mC10).map Prod.fst = none
    ∧ mC10.sub_trade = some true
    ∧ mC10.profit_amount = some 10
    ∧ mC10.cumulative_profit = some 25
    ∧ ((Channel.compose_message cfgC10 { fiat := some convC10 } mC10).map
        Prod.fst).isSome = true := by decide

end FreqtradeRPC
